import Mathlib

/-!
Shallow embedding of the Mars Protocol periphery "Lockdrop" contract
(`contracts/lockdrop/src/contract.rs`) and proofs about its specification.

Conventions of the embedding:
* `Uint128` values are modelled as `Nat`.  Additions are total (`Nat` addition);
  the subtractions that the contract performs are guarded by preceding checks
  (or by invariants of the state machine) and are modelled with truncated `Nat`
  subtraction; the two `unwrap` panics that are the subject of claims
  (`info.funds.first().unwrap()` in `try_deposit_ust` and the
  `position(..).unwrap()` inside `remove_lockup_pos_from_user_info`) are
  modelled explicitly as the error value `Err.rustPanic`.
* cosmwasm `Decimal` is a fixed-point number with 18 fractional digits.  It is
  modelled by its numerator: the `Decimal` with numerator `n` denotes `n / 10^18`.
  `Decimal::from_ratio(a, b)` computes `⌊a·10^18 / b⌋` and `Uint128 * Decimal`
  computes `⌊u·n / 10^18⌋`, exactly as cosmwasm-std does.
* Addresses are modelled as `Nat`; the contract's own address is the constant
  `contractAddr = 0` and external parties use nonzero addresses.
* External queries (cw20 balances, pending rewards, the address provider) are
  modelled by an `Ext` record holding the answers the outside world would give
  at the moment of the call.
* Storage maps (`LOCKUP_INFO`, `USER_INFO`) are association lists keyed by
  `(address, duration)` resp. `address`.  The source keys `LOCKUP_INFO` by the
  string `user.to_string() + duration.to_string()`; the pair key is the
  intended meaning of that string key.
* The structs `Config`, `State`, `LockupInfo`, `UserInfo` live in the crate's
  `state.rs`, which is not part of the given sources; their fields are
  reconstructed from their uses in `contract.rs` (every field read or written
  there appears here) together with spec §3.  `unwrap_or_default()` yields the
  all-zero / empty record, as Rust's derived `Default` does.
-/

namespace Lockdrop

/-- `10^18`, the denominator of cosmwasm `Decimal` fixed-point numbers. -/
def decDenom : Nat := 1000000000000000000

/-- `Decimal::from_ratio(a, b)`: numerator of the fixed-point quotient. -/
def decFromRatio (a b : Nat) : Nat := a * decDenom / b

/-- `Decimal::one()`. -/
def decOne : Nat := decDenom

/-- `Uint128 * Decimal` (and `Decimal * Uint128`): `⌊u·d / 10^18⌋`. -/
def mulDec (u d : Nat) : Nat := u * d / decDenom

/-- Lockdrop contract configuration (struct `Config` in `state.rs`;
fields reconstructed from `contract.rs`). -/
structure Config where
  owner : Nat
  address_provider : Nat
  ma_ust_token : Nat
  auction_contract_address : Nat
  init_timestamp : Nat
  deposit_window : Nat
  withdrawal_window : Nat
  min_lock_duration : Nat
  max_lock_duration : Nat
  seconds_per_week : Nat
  weekly_multiplier : Nat
  weekly_divider : Nat
  lockdrop_incentives : Nat
  deriving DecidableEq, Repr

/-- Global contract state (struct `State` in `state.rs`).
`xmars_rewards_index` is a `Decimal`, stored as its numerator. -/
structure State where
  final_ust_locked : Nat
  final_maust_locked : Nat
  total_ust_locked : Nat
  total_maust_locked : Nat
  total_deposits_weight : Nat
  total_mars_delegated : Nat
  are_claims_allowed : Bool
  xmars_rewards_index : Nat
  deriving DecidableEq, Repr

/-- One lockup position (struct `LockupInfo` in `state.rs`). -/
structure LockupInfo where
  ust_locked : Nat := 0
  duration : Nat := 0
  unlock_timestamp : Nat := 0
  withdrawal_flag : Bool := false
  lockdrop_reward : Nat := 0
  deriving DecidableEq, Repr, Inhabited

/-- Per-user record (struct `UserInfo` in `state.rs`).
`reward_index` is a `Decimal` numerator. -/
structure UserInfo where
  total_ust_locked : Nat := 0
  total_maust_share : Nat := 0
  lockup_positions : List (Nat × Nat) := []
  total_mars_incentives : Nat := 0
  delegated_mars_incentives : Nat := 0
  lockdrop_claimed : Bool := false
  reward_index : Nat := 0
  total_xmars_claimed : Nat := 0
  deriving DecidableEq, Repr, Inhabited

deriving instance DecidableEq for Except

/-- A native coin attached to a message. -/
structure Coin where
  denom : String
  amount : Nat
  deriving DecidableEq, Repr

/-- The whole persistent storage of the contract: `CONFIG`, `STATE`,
`LOCKUP_INFO` and `USER_INFO`. -/
structure Storage where
  config : Config
  state : State
  lockups : List ((Nat × Nat) × LockupInfo)
  users : List (Nat × UserInfo)
  deriving DecidableEq, Repr

/-- The blockchain environment visible to a handler (`Env`). -/
structure EnvInfo where
  blockTime : Nat
  contractAddress : Nat
  deriving DecidableEq, Repr

/-- `MessageInfo`: sender and attached funds. -/
structure MsgInfo where
  sender : Nat
  funds : List Coin
  deriving DecidableEq, Repr

/-- Answers of the outside world to the queries a handler makes:
addresses resolved through the address provider, the contract's cw20
balances, and the pending (unclaimed) MARS rewards. -/
structure Ext where
  redBankAddr : Nat
  marsTokenAddr : Nat
  xmarsTokenAddr : Nat
  incentivesAddr : Nat
  maUstBalance : Nat
  xmarsBalance : Nat
  pendingMars : Nat
  deriving DecidableEq, Repr

/-- Errors: `StdError::generic_err` carrying a reason, or a Rust panic. -/
inductive Err where
  | generic (msg : String)
  | rustPanic
  deriving DecidableEq, Repr

/-- `CallbackMsg` (self-addressed resumption instructions). -/
inductive CallbackMsg where
  | updateStateOnRedBankDeposit (prev_ma_ust_balance : Nat)
  | updateStateOnClaim (user : Nat) (prev_xmars_balance : Nat)
  | dissolvePosition (user : Nat) (duration : Nat) (forceful_unlock : Bool)
  deriving DecidableEq, Repr

/-- Outbound instructions a handler emits (in emission order). -/
inductive OutMsg where
  /-- `build_deposit_into_redbank_msg` (tax deduction modelled as identity). -/
  | depositIntoRedBank (redbank : Nat) (denom : String) (amount : Nat)
  /-- a self-addressed `CallbackMsg` wrapped by `to_cosmos_msg`. -/
  | callback (cb : CallbackMsg)
  /-- `build_send_native_asset_msg` (tax deduction modelled as identity). -/
  | sendNative (recipient : Nat) (denom : String) (amount : Nat)
  /-- `build_claim_xmars_rewards`. -/
  | claimXmarsRewards (incentives : Nat)
  /-- `build_transfer_cw20_token_msg`: `Cw20ExecuteMsg::Transfer`. -/
  | transferCw20 (recipient : Nat) (token : Nat) (amount : Nat)
  /-- `Cw20ExecuteMsg::TransferFrom { owner, recipient, amount }`. -/
  | transferFromCw20 (token : Nat) (owner : Nat) (recipient : Nat) (amount : Nat)
  /-- `build_send_cw20_token_msg` with the auction `DepositMarsTokens` hook. -/
  | sendCw20 (contract : Nat) (token : Nat) (amount : Nat) (hookUser : Nat)
  deriving DecidableEq, Repr

/-- `UpdateConfigMsg` (package `mars_periphery::lockdrop`).  The copy of the
package in the given sources predates the contract: the contract additionally
reads `new_config.auction_contract_address`, so that field is included here. -/
structure UpdateConfigMsg where
  owner : Option Nat := none
  address_provider : Option Nat := none
  ma_ust_token : Option Nat := none
  auction_contract_address : Option Nat := none
  init_timestamp : Option Nat := none
  deposit_window : Option Nat := none
  withdrawal_window : Option Nat := none
  min_duration : Option Nat := none
  max_duration : Option Nat := none
  weekly_multiplier : Option Nat := none
  lockdrop_incentives : Option Nat := none
  deriving DecidableEq, Repr

/-- `ExecuteMsg` of the lockdrop contract. -/
inductive ExecuteMsg where
  | updateConfig (new_config : UpdateConfigMsg)
  | depositUst (duration : Nat)
  | withdrawUst (duration : Nat) (amount : Nat)
  | depositMarsToAuction (amount : Nat)
  | enableClaims
  | depositUstInRedBank
  | claimRewardsAndUnlock (lockup_to_unlock_duration : Nat) (forceful_unlock : Bool)
  | callback (cb : CallbackMsg)
  deriving DecidableEq, Repr

/-- `Result` of a handler: the new storage plus emitted messages, or an error
(an error aborts the transaction, leaving storage untouched). -/
abbrev HandlerResult := Except Err (Storage × List OutMsg)

/-- `LOCKUP_INFO.may_load`. -/
def lockupLoad : List ((Nat × Nat) × LockupInfo) → (Nat × Nat) → Option LockupInfo
  | [], _ => none
  | (k, v) :: rest, key => if k = key then some v else lockupLoad rest key

/-- `LOCKUP_INFO.save` (update in place, or append a fresh entry). -/
def lockupSave : List ((Nat × Nat) × LockupInfo) → (Nat × Nat) → LockupInfo →
    List ((Nat × Nat) × LockupInfo)
  | [], key, v => [(key, v)]
  | (k, w) :: rest, key, v =>
      if k = key then (k, v) :: rest else (k, w) :: lockupSave rest key v

/-- `LOCKUP_INFO.remove`. -/
def lockupRemove : List ((Nat × Nat) × LockupInfo) → (Nat × Nat) →
    List ((Nat × Nat) × LockupInfo)
  | [], _ => []
  | (k, w) :: rest, key =>
      if k = key then rest else (k, w) :: lockupRemove rest key

/-- `USER_INFO.may_load`. -/
def userLoad : List (Nat × UserInfo) → Nat → Option UserInfo
  | [], _ => none
  | (k, v) :: rest, key => if k = key then some v else userLoad rest key

/-- `USER_INFO.save`. -/
def userSave : List (Nat × UserInfo) → Nat → UserInfo → List (Nat × UserInfo)
  | [], key, v => [(key, v)]
  | (k, w) :: rest, key, v =>
      if k = key then (k, v) :: rest else (k, w) :: userSave rest key v

/-- `LOCKUP_INFO.may_load(..)?.unwrap_or_default()`. -/
def loadLockupD (s : Storage) (key : Nat × Nat) : LockupInfo :=
  (lockupLoad s.lockups key).getD default

/-- `USER_INFO.may_load(..)?.unwrap_or_default()`. -/
def loadUserD (s : Storage) (addr : Nat) : UserInfo :=
  (userLoad s.users addr).getD default

/-- `is_deposit_open`: deposits allowed in
`[init_timestamp, init_timestamp + deposit_window]`. -/
def is_deposit_open (current_timestamp : Nat) (config : Config) : Bool :=
  let deposits_opened_till := config.init_timestamp + config.deposit_window
  decide (current_timestamp ≥ config.init_timestamp) &&
    decide (deposits_opened_till ≥ current_timestamp)

/-- `is_withdraw_open`: withdrawals allowed in
`[init_timestamp, init_timestamp + withdrawal_window]`. -/
def is_withdraw_open (current_timestamp : Nat) (config : Config) : Bool :=
  let withdrawals_opened_till := config.init_timestamp + config.withdrawal_window
  decide (current_timestamp ≥ config.init_timestamp) &&
    decide (withdrawals_opened_till ≥ current_timestamp)

/-- `calculate_unlock_timestamp`. -/
def calculate_unlock_timestamp (config : Config) (duration : Nat) : Nat :=
  config.init_timestamp + config.deposit_window + duration * config.seconds_per_week

/-- `allowed_withdrawal_percent`: the three-phase withdrawal-limit curve
(100% before the deposit window closes, then 50%, then linear decay to 0),
returned as a `Decimal` numerator. -/
def allowed_withdrawal_percent (current_timestamp : Nat) (config : Config) : Nat :=
  let withdrawal_cutoff_init_point := config.init_timestamp + config.deposit_window
  if current_timestamp < withdrawal_cutoff_init_point then
    decFromRatio 100 100
  else
    let withdrawal_cutoff_second_point :=
      withdrawal_cutoff_init_point + config.withdrawal_window / 2
    if current_timestamp ≤ withdrawal_cutoff_second_point then
      decFromRatio 50 100
    else
      let withdrawal_cutoff_final := withdrawal_cutoff_init_point + config.withdrawal_window
      if current_timestamp < withdrawal_cutoff_final then
        decFromRatio (50 * (withdrawal_cutoff_final - current_timestamp))
          (100 * (withdrawal_cutoff_final - withdrawal_cutoff_second_point))
      else
        decFromRatio 0 100

/-- `calculate_weight`:
`(Decimal::one() + Decimal::from_ratio((duration-1)*weekly_multiplier, weekly_divider)) * amount`. -/
def calculate_weight (amount : Nat) (duration : Nat) (config : Config) : Nat :=
  let lock_weight :=
    decOne + decFromRatio ((duration - 1) * config.weekly_multiplier) config.weekly_divider
  mulDec amount lock_weight

/-- `calculate_mars_incentives_for_lockup`:
`lockdrop_incentives * Decimal::from_ratio(weight, total_deposits_weight)`
(zero if `total_deposits_weight` is zero). -/
def calculate_mars_incentives_for_lockup (deposited_ust duration : Nat)
    (config : Config) (total_deposits_weight : Nat) : Nat :=
  if total_deposits_weight = 0 then 0
  else
    let amount_weight := calculate_weight deposited_ust duration config
    mulDec config.lockdrop_incentives (decFromRatio amount_weight total_deposits_weight)

/-- `calculate_ma_ust_share`:
`final_maust_locked * Decimal::from_ratio(ust_locked_share, final_ust_locked)`
(zero if `final_ust_locked` is zero). -/
def calculate_ma_ust_share (ust_locked_share final_ust_locked final_maust_locked : Nat) : Nat :=
  if final_ust_locked = 0 then 0
  else mulDec final_maust_locked (decFromRatio ust_locked_share final_ust_locked)

/-- `update_xmars_rewards_index`. -/
def update_xmars_rewards_index (state : State) (xmars_accured : Nat) : State :=
  if state.total_maust_locked = 0 then state
  else
    { state with xmars_rewards_index :=
        state.xmars_rewards_index + decFromRatio xmars_accured state.total_maust_locked }

/-- `compute_user_accrued_reward`: returns the pending xMars and the user
record with its `reward_index` snapshot advanced. -/
def compute_user_accrued_reward (state : State) (user_info : UserInfo) :
    Nat × UserInfo :=
  if state.final_ust_locked = 0 then (0, user_info)
  else
    let pending_xmars :=
      mulDec user_info.total_maust_share state.xmars_rewards_index -
        mulDec user_info.total_maust_share user_info.reward_index
    (pending_xmars, { user_info with reward_index := state.xmars_rewards_index })

/-- `remove_lockup_pos_from_user_info`: removes the first occurrence of the
lockup id from the user's position list; the source `unwrap`s the found index
and panics when the id is absent, modelled by `none`. -/
def remove_lockup_pos_from_user_info (user_info : UserInfo) (lockup_id : Nat × Nat) :
    Option UserInfo :=
  if lockup_id ∈ user_info.lockup_positions then
    some { user_info with lockup_positions := user_info.lockup_positions.erase lockup_id }
  else none

/-- `UUSD_DENOM`. -/
def uusdDenom : String := "uusd"

/-- `update_config`: owner-only; updates only the four address-like fields
(`address_provider`, `ma_ust_token`, `auction_contract_address`, `owner`) via
`option_string_to_addr` (provided value, else current value); emits nothing. -/
def update_config (store : Storage) (_env : EnvInfo) (info : MsgInfo)
    (new_config : UpdateConfigMsg) : HandlerResult :=
  let config := store.config
  if info.sender ≠ config.owner then
    .error (.generic "Only owner can update configuration")
  else
    let config :=
      { config with
        address_provider := new_config.address_provider.getD config.address_provider,
        ma_ust_token := new_config.ma_ust_token.getD config.ma_ust_token,
        auction_contract_address :=
          new_config.auction_contract_address.getD config.auction_contract_address,
        owner := new_config.owner.getD config.owner }
    .ok ({ store with config := config }, [])

/-- `try_deposit_ust`.  The source calls `info.funds.first().unwrap()` after
only checking `info.funds.len() > 1`, so an empty funds list panics
(`Err.rustPanic`). -/
def try_deposit_ust (store : Storage) (env : EnvInfo) (info : MsgInfo)
    (duration : Nat) : HandlerResult :=
  let config := store.config
  let state := store.state
  let depositor_address := info.sender
  if !is_deposit_open env.blockTime config then
    .error (.generic "Deposit window closed")
  else if info.funds.length > 1 then
    .error (.generic "Trying to deposit several coins")
  else
    match info.funds.head? with
    | none => .error .rustPanic
    | some native_token =>
      if native_token.denom ≠ uusdDenom then
        .error (.generic "Only UST among native tokens accepted")
      else if native_token.amount = 0 then
        .error (.generic "Amount must be greater than 0")
      else if duration > config.max_lock_duration ∨ duration < config.min_lock_duration then
        .error (.generic "Lockup duration needs to be between min and max")
      else
        let lockup_id := (depositor_address, duration)
        let lockup_info := loadLockupD store lockup_id
        let lockup_info := { lockup_info with ust_locked := lockup_info.ust_locked + native_token.amount }
        let user_info := loadUserD store depositor_address
        let user_info := { user_info with total_ust_locked := user_info.total_ust_locked + native_token.amount }
        let (lockup_info, user_info) :=
          if lockup_info.duration = 0 then
            ({ lockup_info with
                duration := duration,
                unlock_timestamp := calculate_unlock_timestamp config duration },
             { user_info with lockup_positions := user_info.lockup_positions ++ [lockup_id] })
          else (lockup_info, user_info)
        let state :=
          { state with
            total_ust_locked := state.total_ust_locked + native_token.amount,
            total_deposits_weight :=
              state.total_deposits_weight + calculate_weight native_token.amount duration config }
        .ok ({ store with
                state := state,
                lockups := lockupSave store.lockups lockup_id lockup_info,
                users := userSave store.users depositor_address user_info }, [])

/-- `try_withdraw_ust`. -/
def try_withdraw_ust (store : Storage) (env : EnvInfo) (info : MsgInfo)
    (duration : Nat) (withdraw_amount : Nat) : HandlerResult :=
  let config := store.config
  let state := store.state
  let withdrawer_address := info.sender
  let lockup_id := (withdrawer_address, duration)
  let lockup_info := loadLockupD store lockup_id
  if !is_withdraw_open env.blockTime config then
    .error (.generic "Withdrawals not allowed")
  else if lockup_info.ust_locked = 0 then
    .error (.generic "Lockup doesn't exist")
  else
    let max_withdrawal_percent := allowed_withdrawal_percent env.blockTime config
    let max_withdrawal_allowed := mulDec lockup_info.ust_locked max_withdrawal_percent
    if withdraw_amount > max_withdrawal_allowed then
      .error (.generic "Amount exceeds maximum allowed withdrawal limit")
    else
      let lockup_info :=
        if env.blockTime ≥ config.init_timestamp + config.deposit_window then
          { lockup_info with withdrawal_flag := true }
        else lockup_info
      let lockup_info := { lockup_info with ust_locked := lockup_info.ust_locked - withdraw_amount }
      let user_info := loadUserD store withdrawer_address
      let user_info := { user_info with total_ust_locked := user_info.total_ust_locked - withdraw_amount }
      let user_infoQ : Option UserInfo :=
        if lockup_info.ust_locked = 0 then
          remove_lockup_pos_from_user_info user_info lockup_id
        else some user_info
      match user_infoQ with
      | none => .error .rustPanic
      | some user_info =>
        let state :=
          { state with
            total_ust_locked := state.total_ust_locked - withdraw_amount,
            total_deposits_weight :=
              state.total_deposits_weight - calculate_weight withdraw_amount duration config }
        .ok ({ store with
                state := state,
                lockups := lockupSave store.lockups lockup_id lockup_info,
                users := userSave store.users withdrawer_address user_info },
             [.sendNative withdrawer_address uusdDenom withdraw_amount])

/-- `handle_enable_claims`: auction contract only, once. -/
def handle_enable_claims (store : Storage) (info : MsgInfo) : HandlerResult :=
  let config := store.config
  let state := store.state
  if info.sender ≠ config.auction_contract_address then
    .error (.generic "Unauthorized")
  else if state.are_claims_allowed then
    .error (.generic "Already allowed")
  else
    .ok ({ store with state := { state with are_claims_allowed := true } }, [])

/-- `try_deposit_in_red_bank`: owner-only freeze-and-invest, phase 1.
Emits the red-bank deposit plus the self-addressed resumption carrying the
pre-call maUST balance; writes no state itself. -/
def try_deposit_in_red_bank (store : Storage) (env : EnvInfo) (info : MsgInfo)
    (ext : Ext) : HandlerResult :=
  let config := store.config
  let state := store.state
  if info.sender ≠ config.owner then
    .error (.generic "Unauthorized")
  else if env.blockTime < config.init_timestamp ∨ is_deposit_open env.blockTime config then
    .error (.generic "Lockdrop deposits haven't concluded yet")
  else if state.final_maust_locked > 0 then
    .error (.generic "Already deposited")
  else
    let ma_ust_balance := ext.maUstBalance
    .ok (store,
      [.depositIntoRedBank ext.redBankAddr uusdDenom state.total_ust_locked,
       .callback (.updateStateOnRedBankDeposit ma_ust_balance)])

/-- `update_mars_rewards_allocated_to_lockup_positions`: walks the user's
lockup ids, caches `lockdrop_reward` on each position and returns the total.
The source `unwrap`s each `LOCKUP_INFO.load`, so a dangling id panics. -/
def update_mars_rewards_allocated_to_lockup_positions
    (lockups : List ((Nat × Nat) × LockupInfo)) (config : Config) (state : State)
    (user_info : UserInfo) : Except Err (List ((Nat × Nat) × LockupInfo) × Nat) :=
  user_info.lockup_positions.foldlM
    (fun acc lockup_id =>
      match lockupLoad acc.1 lockup_id with
      | none => .error .rustPanic
      | some lockup_info =>
        let position_rewards := calculate_mars_incentives_for_lockup
          lockup_info.ust_locked lockup_info.duration config state.total_deposits_weight
        .ok (lockupSave acc.1 lockup_id { lockup_info with lockdrop_reward := position_rewards },
             acc.2 + position_rewards))
    (lockups, 0)

/-- `handle_deposit_mars_to_auction`. -/
def handle_deposit_mars_to_auction (store : Storage) (env : EnvInfo) (info : MsgInfo)
    (ext : Ext) (amount : Nat) : HandlerResult :=
  let config := store.config
  let state := store.state
  let user_address := info.sender
  if env.blockTime < config.init_timestamp + config.deposit_window + config.withdrawal_window then
    .error (.generic "Deposit / withdraw windows not closed yet")
  else if state.are_claims_allowed then
    .error (.generic "Auction deposits no longer possible")
  else
    let user_info := loadUserD store user_address
    if user_info.lockup_positions.isEmpty then
      .error (.generic "No valid lockup positions")
    else
      let user_info :=
        if user_info.total_maust_share = 0 then
          { user_info with total_maust_share :=
              (calculate_ma_ust_share user_info.total_ust_locked
                state.final_ust_locked state.final_maust_locked) }
        else user_info
      match
        (if user_info.total_mars_incentives = 0 then
          update_mars_rewards_allocated_to_lockup_positions store.lockups config state user_info
        else .ok (store.lockups, user_info.total_mars_incentives)) with
      | .error e => .error e
      | .ok (lockups, total_mars_incentives) =>
        let user_info := { user_info with total_mars_incentives := total_mars_incentives }
        if amount > user_info.total_mars_incentives - user_info.delegated_mars_incentives then
          .error (.generic "Amount cannot exceed user's unclaimed MARS balance")
        else
          let user_info := { user_info with
            delegated_mars_incentives := user_info.delegated_mars_incentives + amount }
          let state := { state with total_mars_delegated := state.total_mars_delegated + amount }
          .ok ({ store with
                  state := state,
                  lockups := lockups,
                  users := userSave store.users user_address user_info },
               [.sendCw20 config.auction_contract_address ext.marsTokenAddr amount user_address])

/-- `handle_claim_rewards_and_unlock_position`.  Note that the source mutates
`user_info` only locally (it never saves `USER_INFO` here); the persistent
writes are the per-position `lockdrop_reward` caches. -/
def handle_claim_rewards_and_unlock_position (store : Storage) (env : EnvInfo)
    (info : MsgInfo) (ext : Ext) (lockup_to_unlock_duration : Nat)
    (forceful_unlock : Bool) : HandlerResult :=
  let config := store.config
  let state := store.state
  let user_address := info.sender
  let user_info := loadUserD store user_address
  let unlockCheck : Except Err Unit :=
    if lockup_to_unlock_duration > 0 then
      let lockup_id := (user_address, lockup_to_unlock_duration)
      let lockup_info := loadLockupD store lockup_id
      if lockup_info.ust_locked = 0 then
        .error (.generic "Invalid lockup")
      else if !forceful_unlock ∧ lockup_info.unlock_timestamp > env.blockTime then
        .error (.generic "seconds to Unlock")
      else .ok ()
    else .ok ()
  match unlockCheck with
  | .error e => .error e
  | .ok _ =>
    if user_info.total_ust_locked = 0 then
      .error (.generic "No lockup to claim rewards for")
    else if !state.are_claims_allowed then
      .error (.generic "Claim not allowed")
    else
      let user_info :=
        if user_info.total_maust_share = 0 then
          { user_info with total_maust_share :=
              (calculate_ma_ust_share user_info.total_ust_locked
                state.final_ust_locked state.final_maust_locked) }
        else user_info
      match
        (if user_info.total_mars_incentives = 0 then
          update_mars_rewards_allocated_to_lockup_positions store.lockups config state user_info
        else .ok (store.lockups, user_info.total_mars_incentives)) with
      | .error e => .error e
      | .ok (lockups, _total_mars_incentives) =>
        let claimMsgs : List OutMsg :=
          if ext.pendingMars ≠ 0 then [.claimXmarsRewards ext.incentivesAddr] else []
        let callbackMsgs : List OutMsg :=
          [.callback (.updateStateOnClaim user_address ext.xmarsBalance)]
        let dissolveMsgs : List OutMsg :=
          if lockup_to_unlock_duration > 0 then
            [.callback (.dissolvePosition user_address lockup_to_unlock_duration forceful_unlock)]
          else []
        .ok ({ store with lockups := lockups },
             claimMsgs ++ callbackMsgs ++ dissolveMsgs)

/-- `update_state_on_red_bank_deposit` (freeze-and-invest resumption):
`minted = current maUST balance - prev_ma_ust_balance`;
`final_ust_locked := total_ust_locked`, `final_maust_locked := minted`,
`total_ust_locked := 0`, `total_maust_locked := minted`. -/
def update_state_on_red_bank_deposit (store : Storage) (_env : EnvInfo)
    (prev_ma_ust_balance : Nat) (ext : Ext) : HandlerResult :=
  let state := store.state
  let cur_ma_ust_balance := ext.maUstBalance
  let m_ust_minted := cur_ma_ust_balance - prev_ma_ust_balance
  let state :=
    { state with
      final_ust_locked := state.total_ust_locked,
      final_maust_locked := m_ust_minted,
      total_ust_locked := 0,
      total_maust_locked := m_ust_minted }
  .ok ({ store with state := state }, [])

/-- `update_state_on_claim`.  The source threads one mutable `user_info`
and one mutable message list through three steps; here each step is a
separate `let` binding. -/
def update_state_on_claim (store : Storage) (_env : EnvInfo) (user : Nat)
    (prev_xmars_balance : Nat) (ext : Ext) : HandlerResult :=
  let state := store.state
  let user_info := loadUserD store user
  let cur_xmars_balance := ext.xmarsBalance
  let xmars_accured := cur_xmars_balance - prev_xmars_balance
  let state :=
    if xmars_accured > 0 then update_xmars_rewards_index state xmars_accured else state
  let pending_xmars_rewards := (compute_user_accrued_reward state user_info).1
  let user_info := (compute_user_accrued_reward state user_info).2
  let user_info2 :=
    if pending_xmars_rewards > 0 then
      { user_info with
        total_xmars_claimed := user_info.total_xmars_claimed + pending_xmars_rewards }
    else user_info
  let xmarsMsgs : List OutMsg :=
    if pending_xmars_rewards > 0 then
      [.transferCw20 user ext.xmarsTokenAddr pending_xmars_rewards]
    else []
  let mars_to_transfer :=
    user_info2.total_mars_incentives - user_info2.delegated_mars_incentives
  let user_info3 :=
    if !user_info2.lockdrop_claimed then
      { user_info2 with lockdrop_claimed := true }
    else user_info2
  let marsMsgs : List OutMsg :=
    if !user_info2.lockdrop_claimed then
      [.transferCw20 user ext.marsTokenAddr mars_to_transfer]
    else []
  .ok ({ store with state := state, users := userSave store.users user user_info3 },
       xmarsMsgs ++ marsMsgs)

/-- `try_dissolve_position`.  On a forceful unlock the MARS clawback
(`TransferFrom user -> contract` of the cached `lockdrop_reward`) is emitted
before the maUST transfer to the user. -/
def try_dissolve_position (store : Storage) (env : EnvInfo) (user : Nat)
    (duration : Nat) (forceful_unlock : Bool) (ext : Ext) : HandlerResult :=
  let config := store.config
  let state := store.state
  let user_info := loadUserD store user
  let lockup_id := (user, duration)
  let lockup_info := loadLockupD store lockup_id
  let maust_to_withdraw := calculate_ma_ust_share lockup_info.ust_locked
    state.final_ust_locked state.final_maust_locked
  let state := { state with total_maust_locked := state.total_maust_locked - maust_to_withdraw }
  let user_info := { user_info with total_maust_share := user_info.total_maust_share - maust_to_withdraw }
  let lockup_info := { lockup_info with ust_locked := 0 }
  match remove_lockup_pos_from_user_info user_info lockup_id with
  | none => .error .rustPanic
  | some user_info =>
    let forcefulMsgs : List OutMsg :=
      if forceful_unlock then
        [.transferFromCw20 ext.marsTokenAddr user env.contractAddress lockup_info.lockdrop_reward]
      else []
    let cosmos_msgs := forcefulMsgs ++
      [OutMsg.transferCw20 user config.ma_ust_token maust_to_withdraw]
    .ok ({ store with
            state := state,
            users := userSave store.users user user_info,
            lockups := lockupRemove store.lockups lockup_id }, cosmos_msgs)

/-- `_handle_callback`: rejects any sender other than the contract itself,
then dispatches. -/
def handleCallback (store : Storage) (env : EnvInfo) (info : MsgInfo) (ext : Ext)
    (msg : CallbackMsg) : HandlerResult :=
  if info.sender ≠ env.contractAddress then
    .error (.generic "callbacks cannot be invoked externally")
  else
    match msg with
    | .updateStateOnRedBankDeposit prev => update_state_on_red_bank_deposit store env prev ext
    | .updateStateOnClaim user prev => update_state_on_claim store env user prev ext
    | .dissolvePosition user duration forceful => try_dissolve_position store env user duration forceful ext

/-- `execute`: the contract's message dispatcher. -/
def execute (store : Storage) (env : EnvInfo) (info : MsgInfo) (ext : Ext) :
    ExecuteMsg → HandlerResult
  | .updateConfig new_config => update_config store env info new_config
  | .depositUst duration => try_deposit_ust store env info duration
  | .withdrawUst duration amount => try_withdraw_ust store env info duration amount
  | .depositMarsToAuction amount => handle_deposit_mars_to_auction store env info ext amount
  | .enableClaims => handle_enable_claims store info
  | .depositUstInRedBank => try_deposit_in_red_bank store env info ext
  | .claimRewardsAndUnlock dur forceful =>
      handle_claim_rewards_and_unlock_position store env info ext dur forceful
  | .callback cb => handleCallback store env info ext cb

/-- `instantiate`: validates the timestamp, windows and lockup durations and
creates the zeroed initial state. -/
def instantiate (blockTime : Nat) (config : Config) : Except Err Storage :=
  if config.init_timestamp < blockTime then
    .error (.generic "Invalid timestamp")
  else if config.deposit_window = 0 ∨ config.withdrawal_window = 0 ∨
      config.deposit_window ≤ config.withdrawal_window then
    .error (.generic "Invalid deposit / withdraw window")
  else if config.max_lock_duration ≤ config.min_lock_duration then
    .error (.generic "Invalid Lockup durations")
  else
    .ok { config := config,
          state :=
            { final_ust_locked := 0, final_maust_locked := 0,
              total_ust_locked := 0, total_maust_locked := 0,
              total_deposits_weight := 0, total_mars_delegated := 0,
              are_claims_allowed := false, xmars_rewards_index := 0 },
          lockups := [], users := [] }

/-- The contract's own address in the system model. -/
def contractAddr : Nat := 0

/-- The self-addressed callbacks among a list of emitted messages (these are
the only emitted messages that re-enter this contract). -/
def cbOf (out : List OutMsg) : List CallbackMsg :=
  out.filterMap fun m =>
    match m with
    | .callback cb => some cb
    | _ => none

/-- A system configuration: the contract's storage plus the queue of emitted,
not yet executed, self-addressed callback messages. -/
structure Sys where
  store : Storage
  queue : List CallbackMsg
  deriving DecidableEq, Repr

/-- One step of the environment: either an external transaction (any sender
other than the contract itself, any block time, any attached funds, any
answers `ext` of the outside world), or the delivery of the oldest pending
self-addressed callback (the environment executes emitted messages in
emission order, with the contract itself as sender). -/
inductive StepInput where
  | extCall (sender : Nat) (time : Nat) (funds : List Coin) (ext : Ext) (msg : ExecuteMsg)
  | deliver (time : Nat) (ext : Ext)
  deriving DecidableEq, Repr

/-- Apply one step.  A failed execution reverts (leaves the storage as it
was); a failed callback delivery is dropped from the queue.  The real host
rolls the whole transaction back when an emitted message fails, so the states
reachable here are a superset of the states reachable on chain. -/
def runStep (sys : Sys) : StepInput → Sys
  | .extCall sender time funds ext msg =>
      if sender = contractAddr then sys
      else
        match execute sys.store ⟨time, contractAddr⟩ ⟨sender, funds⟩ ext msg with
        | .ok (store', out) => ⟨store', sys.queue ++ cbOf out⟩
        | .error _ => sys
  | .deliver time ext =>
      match sys.queue with
      | [] => sys
      | cb :: rest =>
        match execute sys.store ⟨time, contractAddr⟩ ⟨contractAddr, []⟩ ext (.callback cb) with
        | .ok (store', out) => ⟨store', rest ++ cbOf out⟩
        | .error _ => ⟨sys.store, rest⟩

/-- Apply a sequence of steps. -/
def runSteps (sys : Sys) (l : List StepInput) : Sys :=
  l.foldl runStep sys

/-- The system right after a successful `instantiate`. -/
def initSys (store : Storage) : Sys := ⟨store, []⟩

/-! ### Shared concrete fixtures used by witnesses and counterexamples -/

/-- A configuration accepted by `instantiate` (at block time `0`):
windows `1000`/`200`, durations `1..10` weeks, weight multiplier `1/10`,
incentive pool `12000000`. -/
def fixCfg : Config :=
  { owner := 1, address_provider := 10, ma_ust_token := 11, auction_contract_address := 3,
    init_timestamp := 1000, deposit_window := 1000, withdrawal_window := 200,
    min_lock_duration := 1, max_lock_duration := 10, seconds_per_week := 604800,
    weekly_multiplier := 1, weekly_divider := 10, lockdrop_incentives := 12000000 }

/-- The storage `instantiate 0 fixCfg` produces. -/
def fixStore : Storage :=
  { config := fixCfg,
    state :=
      { final_ust_locked := 0, final_maust_locked := 0,
        total_ust_locked := 0, total_maust_locked := 0,
        total_deposits_weight := 0, total_mars_delegated := 0,
        are_claims_allowed := false, xmars_rewards_index := 0 },
    lockups := [], users := [] }

/-- External world answering all balance queries with zero. -/
def extZero : Ext := ⟨20, 21, 22, 23, 0, 0, 0⟩

/-! ### Helper lemmas (shared) -/

theorem decDenom_pos : 0 < decDenom := by norm_num [decDenom]

theorem decFromRatio_100_100 : decFromRatio 100 100 = decOne := by
  norm_num [decFromRatio, decOne, decDenom]

theorem mulDec_decOne (u : Nat) : mulDec u decOne = u := by
  unfold mulDec decOne
  exact Nat.mul_div_cancel u decDenom_pos

theorem allowed_percent_before_cutoff (t : Nat) (cfg : Config)
    (h : t < cfg.init_timestamp + cfg.deposit_window) :
    allowed_withdrawal_percent t cfg = decOne := by
  unfold allowed_withdrawal_percent
  rw [if_pos h, decFromRatio_100_100]

theorem instantiate_ok_windows (bt : Nat) (cfg : Config) (st : Storage)
    (hinst : instantiate bt cfg = .ok st) :
    cfg.deposit_window ≠ 0 ∧ cfg.withdrawal_window ≠ 0 ∧
      cfg.withdrawal_window < cfg.deposit_window := by
  unfold instantiate at hinst
  split at hinst
  · simp at hinst
  split at hinst
  · simp at hinst
  split at hinst
  · simp at hinst
  rename_i hw _
  push_neg at hw
  exact ⟨hw.1, hw.2.1, hw.2.2⟩

theorem is_withdraw_open_bounds (t : Nat) (cfg : Config)
    (h : is_withdraw_open t cfg = true) :
    cfg.init_timestamp ≤ t ∧ t ≤ cfg.init_timestamp + cfg.withdrawal_window := by
  simp only [is_withdraw_open, Bool.and_eq_true, decide_eq_true_eq, ge_iff_le] at h
  exact ⟨h.1, h.2⟩

/-! ### C3 -/

/-- C3: for every configuration accepted by `instantiate` (which enforces
`0 < withdrawal_window < deposit_window`) and every timestamp at which
`is_withdraw_open` holds, `allowed_withdrawal_percent` is exactly 100%
(`Decimal::one()`); the 50% phase and the linear-decay phase of the
three-phase curve are unreachable through `try_withdraw_ust`. -/
theorem c3_withdraw_open_percent_is_100 (bt : Nat) (cfg : Config) (st : Storage)
    (t : Nat) (hinst : instantiate bt cfg = .ok st)
    (hopen : is_withdraw_open t cfg = true) :
    allowed_withdrawal_percent t cfg = decOne := by
  obtain ⟨-, -, hlt⟩ := instantiate_ok_windows bt cfg st hinst
  obtain ⟨-, h2⟩ := is_withdraw_open_bounds t cfg hopen
  exact allowed_percent_before_cutoff t cfg
    (lt_of_le_of_lt h2 (Nat.add_lt_add_left hlt _))

/-- C3 witness: the concrete fixture configuration at `t = 1100`. -/
theorem c3_withdraw_open_percent_is_100_witness :
    is_withdraw_open 1100 fixCfg = true ∧
      allowed_withdrawal_percent 1100 fixCfg = decOne :=
  ⟨by decide, c3_withdraw_open_percent_is_100 0 fixCfg fixStore 1100 (by decide) (by decide)⟩

/-! ### C4 -/

/-- C4 counterexample: with the fixture configuration (`weekly_multiplier = 1`,
`weekly_divider = 10`, valid duration range `1..10`), the valid input
`amount = 1, duration = 2` yields `calculate_weight = 1`, while the exact
value `amount * (1 + (duration-1)*multiplier/divider)` is `11/10`: the
computed weight is NOT exactly the rational formula. -/
theorem c4_weight_not_exact_counterexample :
    fixCfg.min_lock_duration ≤ 2 ∧ 2 ≤ fixCfg.max_lock_duration ∧
      ((calculate_weight 1 2 fixCfg : ℚ) ≠
        (1 : ℚ) * (1 + ((2 : ℚ) - 1) * (fixCfg.weekly_multiplier : ℚ) /
          (fixCfg.weekly_divider : ℚ))) := by
  refine ⟨by decide, by decide, ?_⟩
  have h : calculate_weight 1 2 fixCfg = 1 := by decide
  rw [h]
  show (1 : ℚ) ≠ _
  norm_num [fixCfg]

/-- C4 (amended): `calculate_weight` rounds down twice, so it equals the
exact rational `amount * (1 + (duration-1)*multiplier/divider)` only under
divisibility conditions: whenever `weekly_divider` divides both
`(duration-1)*multiplier*10^18` (so `Decimal::from_ratio` is exact) and
`amount*(duration-1)*multiplier` (so the final product is an integer).
The spec's example (`multiplier=1, divider=10, amount=1000, duration=4`)
satisfies both and gives exactly `1300`. -/
theorem c4_weight_formula_exact_under_divisibility (amount duration : Nat)
    (cfg : Config) (h1 : 1 ≤ duration) (h2 : 0 < cfg.weekly_divider)
    (h3 : cfg.weekly_divider ∣ (duration - 1) * cfg.weekly_multiplier * decDenom)
    (h4 : cfg.weekly_divider ∣ amount * ((duration - 1) * cfg.weekly_multiplier)) :
    (calculate_weight amount duration cfg : ℚ) =
      (amount : ℚ) * (1 + ((duration : ℚ) - 1) * (cfg.weekly_multiplier : ℚ) /
        (cfg.weekly_divider : ℚ)) := by
  set k := (duration - 1) * cfg.weekly_multiplier with hk
  obtain ⟨n, hn⟩ := h3
  obtain ⟨c, hc⟩ := h4
  have hNat : calculate_weight amount duration cfg = amount + c := by
    unfold calculate_weight mulDec decOne decFromRatio
    rw [← hk, hn, Nat.mul_div_cancel_left n h2]
    have han : amount * n * cfg.weekly_divider = c * decDenom * cfg.weekly_divider := by
      calc amount * n * cfg.weekly_divider = amount * (cfg.weekly_divider * n) := by ring
        _ = amount * (k * decDenom) := by rw [hn]
        _ = amount * k * decDenom := by ring
        _ = cfg.weekly_divider * c * decDenom := by rw [hc]
        _ = c * decDenom * cfg.weekly_divider := by ring
    have han2 : amount * n = c * decDenom := Nat.eq_of_mul_eq_mul_right h2 han
    calc amount * (decDenom + n) / decDenom
        = (amount * decDenom + amount * n) / decDenom := by rw [Nat.mul_add]
      _ = (amount * decDenom + c * decDenom) / decDenom := by rw [han2]
      _ = (amount + c) * decDenom / decDenom := by rw [Nat.add_mul]
      _ = amount + c := Nat.mul_div_cancel _ decDenom_pos
  rw [hNat]
  rw [hk] at hc
  have hc2 : (amount : ℚ) * (((duration - 1 : Nat) : ℚ) * (cfg.weekly_multiplier : ℚ)) =
      (cfg.weekly_divider : ℚ) * (c : ℚ) := by exact_mod_cast hc
  have hD : (cfg.weekly_divider : ℚ) ≠ 0 := Nat.cast_ne_zero.mpr h2.ne'
  have hcast : ((duration : ℚ) - 1) = ((duration - 1 : Nat) : ℚ) := by
    rw [Nat.cast_sub h1, Nat.cast_one]
  rw [hcast, Nat.cast_add]
  field_simp
  linear_combination -hc2 - (amount : ℚ) * (cfg.weekly_multiplier : ℚ) * hcast

/-- C4 witness: the spec's own example `multiplier=1, divider=10,
amount=1000, duration=4` satisfies the divisibility conditions and the weight
is exactly `1300 = 1000 * (1 + 3/10)`. -/
theorem c4_weight_formula_exact_witness :
    calculate_weight 1000 4 fixCfg = 1300 ∧
      ((calculate_weight 1000 4 fixCfg : ℚ) =
        (1000 : ℚ) * (1 + ((4 : ℚ) - 1) * (fixCfg.weekly_multiplier : ℚ) /
          (fixCfg.weekly_divider : ℚ))) :=
  ⟨by decide,
   c4_weight_formula_exact_under_divisibility 1000 4 fixCfg (by decide) (by decide)
     (by decide) (by decide)⟩

/-! ### C7 -/

/-- C7: any `Callback` message executed with a sender other than the
contract's own address fails with the authorization error
"callbacks cannot be invoked externally", and (at the system level) an
external call carrying a `Callback` message never changes the system state
at all. -/
theorem c7_external_callbacks_rejected (store : Storage) (env : EnvInfo)
    (info : MsgInfo) (ext : Ext) (cb : CallbackMsg)
    (h : info.sender ≠ env.contractAddress) :
    execute store env info ext (.callback cb) =
        .error (.generic "callbacks cannot be invoked externally") ∧
      (∀ (sys : Sys) (sender time : Nat) (funds : List Coin) (ext2 : Ext)
        (cb2 : CallbackMsg),
        runStep sys (.extCall sender time funds ext2 (.callback cb2)) = sys) := by
  constructor
  · show handleCallback store env info ext cb = _
    unfold handleCallback
    rw [if_pos h]
  · intro sys sender time funds ext2 cb2
    simp only [runStep]
    by_cases hs : sender = contractAddr
    · rw [if_pos hs]
    · rw [if_neg hs]
      have hexec : execute sys.store ⟨time, contractAddr⟩ ⟨sender, funds⟩ ext2 (.callback cb2) =
          .error (.generic "callbacks cannot be invoked externally") := by
        show handleCallback _ _ _ _ _ = _
        unfold handleCallback
        rw [if_pos hs]
      rw [hexec]

/-- C7 witness: a concrete external sender (`5`) sending a concrete callback. -/
theorem c7_external_callbacks_rejected_witness :
    execute fixStore ⟨1000, 0⟩ ⟨5, []⟩ extZero
        (.callback (.dissolvePosition 2 4 true)) =
      .error (.generic "callbacks cannot be invoked externally") :=
  (c7_external_callbacks_rejected fixStore ⟨1000, 0⟩ ⟨5, []⟩ extZero
    (.dissolvePosition 2 4 true) (by decide)).1

/-! ### C10 -/

/-- C10: during the open deposit window, `try_deposit_ust` with an empty
funds list panics (the source `unwrap`s `info.funds.first()`); it does not
return a `StdError` validation error. -/
theorem c10_deposit_empty_funds_panics (store : Storage) (env : EnvInfo)
    (info : MsgInfo) (duration : Nat)
    (hopen : is_deposit_open env.blockTime store.config = true)
    (hfunds : info.funds = []) :
    try_deposit_ust store env info duration = .error .rustPanic ∧
      ∀ s, try_deposit_ust store env info duration ≠ .error (.generic s) := by
  have hmain : try_deposit_ust store env info duration = .error .rustPanic := by
    simp [try_deposit_ust, hfunds, hopen]
  exact ⟨hmain, fun s hcontra => by rw [hmain] at hcontra; exact Err.noConfusion (Except.error.inj hcontra)⟩

/-- C10 witness: the fixture contract at `t = 1000` with no attached coins. -/
theorem c10_deposit_empty_funds_panics_witness :
    try_deposit_ust fixStore ⟨1000, 0⟩ ⟨2, []⟩ 4 = .error .rustPanic :=
  (c10_deposit_empty_funds_panics fixStore ⟨1000, 0⟩ ⟨2, []⟩ 4 (by decide) rfl).1

/-! ### C2 -/

/-- C2: once `final_maust_locked` is nonzero, a second `DepositUstInRedBank`
call (by the owner, after the deposit window) fails with the state error
"Already deposited" — at the system level the step leaves everything
unchanged — and the resumption of the (first) successful call sets
`final_ust_locked := total_ust_locked`, `final_maust_locked := minted delta`,
`total_ust_locked := 0` and `total_maust_locked := minted delta`. -/
theorem c2_freeze_and_invest_once (store : Storage) (env : EnvInfo)
    (info : MsgInfo) (ext : Ext)
    (howner : info.sender = store.config.owner)
    (htime : ¬ env.blockTime < store.config.init_timestamp)
    (hclosed : is_deposit_open env.blockTime store.config = false)
    (hdone : store.state.final_maust_locked ≠ 0) :
    try_deposit_in_red_bank store env info ext =
        .error (.generic "Already deposited") ∧
      (∀ sys : Sys, sys.store = store →
        runStep sys (.extCall info.sender env.blockTime info.funds ext .depositUstInRedBank) = sys) ∧
      (∀ (st : Storage) (env2 : EnvInfo) (prev : Nat) (ext2 : Ext),
        update_state_on_red_bank_deposit st env2 prev ext2 =
          .ok ({ st with state :=
                  { st.state with
                    final_ust_locked := st.state.total_ust_locked,
                    final_maust_locked := ext2.maUstBalance - prev,
                    total_ust_locked := 0,
                    total_maust_locked := ext2.maUstBalance - prev } }, [])) := by
  have hmain : try_deposit_in_red_bank store env info ext =
      .error (.generic "Already deposited") := by
    unfold try_deposit_in_red_bank
    rw [if_neg (by simp [howner])]
    rw [if_neg (by simp [htime, hclosed])]
    rw [if_pos (Nat.pos_of_ne_zero hdone)]
  refine ⟨hmain, ?_, ?_⟩
  · intro sys hsys
    simp only [runStep]
    by_cases hs : info.sender = contractAddr
    · rw [if_pos hs]
    · rw [if_neg hs]
      have : execute sys.store ⟨env.blockTime, contractAddr⟩ ⟨info.sender, info.funds⟩ ext
          .depositUstInRedBank = .error (.generic "Already deposited") := by
        show try_deposit_in_red_bank sys.store ⟨env.blockTime, contractAddr⟩
            ⟨info.sender, info.funds⟩ ext = _
        rw [hsys]
        unfold try_deposit_in_red_bank
        rw [if_neg (by simp [howner])]
        rw [if_neg (by simp [htime, hclosed])]
        rw [if_pos (Nat.pos_of_ne_zero hdone)]
      rw [this]
  · intro st env2 prev ext2
    rfl

/-- C2 witness: concrete post-freeze storage with `final_maust_locked = 10`. -/
def frozenStore : Storage :=
  { fixStore with state :=
      { fixStore.state with
        final_ust_locked := 10, final_maust_locked := 10,
        total_ust_locked := 0, total_maust_locked := 10 } }

/-- C2 witness: the owner retries the freeze at `t = 2500` on `frozenStore`
and gets "Already deposited". -/
theorem c2_freeze_and_invest_once_witness :
    try_deposit_in_red_bank frozenStore ⟨2500, 0⟩ ⟨1, []⟩ extZero =
        .error (.generic "Already deposited") ∧
      update_state_on_red_bank_deposit fixStore ⟨2500, 0⟩ 0 ⟨20, 21, 22, 23, 10, 0, 0⟩ =
        .ok ({ fixStore with state :=
                { fixStore.state with
                  final_ust_locked := fixStore.state.total_ust_locked,
                  final_maust_locked := 10, total_ust_locked := 0,
                  total_maust_locked := 10 } }, []) :=
  ⟨(c2_freeze_and_invest_once frozenStore ⟨2500, 0⟩ ⟨1, []⟩ extZero (by decide)
      (by decide) (by decide) (by decide)).1,
   (c2_freeze_and_invest_once frozenStore ⟨2500, 0⟩ ⟨1, []⟩ extZero (by decide)
      (by decide) (by decide) (by decide)).2.2 fixStore ⟨2500, 0⟩ 0 ⟨20, 21, 22, 23, 10, 0, 0⟩⟩

/-! ### C8 -/

/-- C8 counterexample: the owner calls `UpdateConfig` at `t = 900` (before
`init_timestamp = 1000` has passed) supplying `init_timestamp = 1500`,
`deposit_window = 5000` and `withdrawal_window = 600`; the call succeeds but
the stored configuration is completely unchanged — the supplied timestamp and
window values are ignored, contradicting the claim that they are updated. -/
theorem c8_update_config_counterexample :
    (900 ≤ fixStore.config.init_timestamp) ∧
      update_config fixStore ⟨900, 0⟩ ⟨1, []⟩
          { init_timestamp := some 1500, deposit_window := some 5000,
            withdrawal_window := some 600 } = .ok (fixStore, []) ∧
      fixStore.config.init_timestamp ≠ 1500 ∧
      fixStore.config.deposit_window ≠ 5000 ∧
      fixStore.config.withdrawal_window ≠ 600 := by
  refine ⟨by decide, ?_, by decide, by decide, by decide⟩
  decide

/-- C8 (amended): an owner call of `UpdateConfig` always succeeds and updates
only the address-like fields (`owner`, `address_provider`, `ma_ust_token`,
`auction_contract_address`, each taken from the message when supplied);
the supplied `init_timestamp`, `deposit_window`, `withdrawal_window` (and
duration/multiplier/incentive) values are ignored: those stored fields are
unchanged. -/
theorem c8_update_config_ignores_timestamp_and_windows (store : Storage)
    (env : EnvInfo) (info : MsgInfo) (msg : UpdateConfigMsg)
    (howner : info.sender = store.config.owner) :
    ∃ config', update_config store env info msg = .ok ({ store with config := config' }, []) ∧
      config'.init_timestamp = store.config.init_timestamp ∧
      config'.deposit_window = store.config.deposit_window ∧
      config'.withdrawal_window = store.config.withdrawal_window ∧
      config'.min_lock_duration = store.config.min_lock_duration ∧
      config'.max_lock_duration = store.config.max_lock_duration ∧
      config'.weekly_multiplier = store.config.weekly_multiplier ∧
      config'.lockdrop_incentives = store.config.lockdrop_incentives ∧
      config'.owner = msg.owner.getD store.config.owner ∧
      config'.address_provider = msg.address_provider.getD store.config.address_provider ∧
      config'.ma_ust_token = msg.ma_ust_token.getD store.config.ma_ust_token ∧
      config'.auction_contract_address =
        msg.auction_contract_address.getD store.config.auction_contract_address := by
  refine ⟨{ store.config with
      address_provider := msg.address_provider.getD store.config.address_provider,
      ma_ust_token := msg.ma_ust_token.getD store.config.ma_ust_token,
      auction_contract_address :=
        msg.auction_contract_address.getD store.config.auction_contract_address,
      owner := msg.owner.getD store.config.owner },
    ?_, rfl, rfl, rfl, rfl, rfl, rfl, rfl, rfl, rfl, rfl, rfl⟩
  unfold update_config
  rw [if_neg (by simp [howner])]

/-- C8 amended-claim witness: the owner supplies a new `ma_ust_token` and a
new `init_timestamp`; the token address is updated, the timestamp is not. -/
theorem c8_update_config_ignores_timestamp_and_windows_witness :
    ∃ config', update_config fixStore ⟨900, 0⟩ ⟨1, []⟩
        { ma_ust_token := some 42, init_timestamp := some 1500 } =
          .ok ({ fixStore with config := config' }, []) ∧
      config'.init_timestamp = fixStore.config.init_timestamp ∧
      config'.deposit_window = fixStore.config.deposit_window ∧
      config'.withdrawal_window = fixStore.config.withdrawal_window ∧
      config'.min_lock_duration = fixStore.config.min_lock_duration ∧
      config'.max_lock_duration = fixStore.config.max_lock_duration ∧
      config'.weekly_multiplier = fixStore.config.weekly_multiplier ∧
      config'.lockdrop_incentives = fixStore.config.lockdrop_incentives := by
  have h := c8_update_config_ignores_timestamp_and_windows fixStore ⟨900, 0⟩ ⟨1, []⟩
    { ma_ust_token := some 42, init_timestamp := some 1500 } (by decide)
  obtain ⟨config', h1, h2, h3, h4, h5, h6, h7, h8, -⟩ := h
  exact ⟨config', h1, h2, h3, h4, h5, h6, h7, h8⟩

/-! ### C6 -/

/-- C6: a forceful `DissolvePosition` on a position whose cached
`lockdrop_reward` is `R` succeeds and emits exactly two instructions, in
order: first a cw20 `TransferFrom` pulling `R` MARS tokens from the user back
to the contract, then the maUST share transfer to the user. -/
theorem c6_forceful_dissolve_clawback_order (store : Storage) (env : EnvInfo)
    (user duration : Nat) (ext : Ext) (li : LockupInfo)
    (hli : lockupLoad store.lockups (user, duration) = some li)
    (hmem : (user, duration) ∈ (loadUserD store user).lockup_positions) :
    ∃ store', try_dissolve_position store env user duration true ext =
      .ok (store',
        [.transferFromCw20 ext.marsTokenAddr user env.contractAddress li.lockdrop_reward,
         .transferCw20 user store.config.ma_ust_token
           (calculate_ma_ust_share li.ust_locked store.state.final_ust_locked
             store.state.final_maust_locked)]) := by
  unfold try_dissolve_position remove_lockup_pos_from_user_info
  simp only [loadLockupD, hli, Option.getD_some, hmem, if_true, if_pos]
  exact ⟨_, rfl⟩

/-- C6 witness: a post-freeze store holding one position for user `2`
with cached `lockdrop_reward = 777` and `ust_locked = 100` (maUST share
`100` of the frozen `100/100`). -/
def dissolveStore : Storage :=
  { config := fixCfg,
    state :=
      { final_ust_locked := 100, final_maust_locked := 100,
        total_ust_locked := 0, total_maust_locked := 100,
        total_deposits_weight := 130, total_mars_delegated := 0,
        are_claims_allowed := true, xmars_rewards_index := 0 },
    lockups := [((2, 4),
      { ust_locked := 100, duration := 4, unlock_timestamp := 2421200,
        withdrawal_flag := false, lockdrop_reward := 777 })],
    users := [(2,
      { total_ust_locked := 100, total_maust_share := 100,
        lockup_positions := [(2, 4)], total_mars_incentives := 777,
        delegated_mars_incentives := 0, lockdrop_claimed := false,
        reward_index := 0, total_xmars_claimed := 0 })] }

/-- C6 witness: on `dissolveStore`, the forceful dissolve emits the `777`
MARS clawback first, then the `100` maUST transfer. -/
theorem c6_forceful_dissolve_clawback_order_witness :
    ∃ store', try_dissolve_position dissolveStore ⟨2500, 0⟩ 2 4 true extZero =
      .ok (store',
        [.transferFromCw20 extZero.marsTokenAddr 2 (0 : Nat)
           (LockupInfo.lockdrop_reward
             { ust_locked := 100, duration := 4, unlock_timestamp := 2421200,
               withdrawal_flag := false, lockdrop_reward := 777 }),
         .transferCw20 2 dissolveStore.config.ma_ust_token
           (calculate_ma_ust_share 100 dissolveStore.state.final_ust_locked
             dissolveStore.state.final_maust_locked)]) :=
  c6_forceful_dissolve_clawback_order dissolveStore ⟨2500, 0⟩ 2 4 extZero
    { ust_locked := 100, duration := 4, unlock_timestamp := 2421200,
      withdrawal_flag := false, lockdrop_reward := 777 } (by decide) (by decide)

/-! ### C1 -/

/-- Sum over all stored lockup positions of the MARS incentive that
`calculate_mars_incentives_for_lockup` computes for them (against the
current `total_deposits_weight`). -/
def lockupIncentiveSum (store : Storage) : Nat :=
  (store.lockups.map fun kv =>
    calculate_mars_incentives_for_lockup kv.2.ust_locked kv.2.duration
      store.config store.state.total_deposits_weight).sum

/-- Sum over all stored lockup positions of their recomputed weight. -/
def lockupWeightSum (store : Storage) : Nat :=
  (store.lockups.map fun kv =>
    calculate_weight kv.2.ust_locked kv.2.duration store.config).sum

theorem mulDec_fromRatio_le (L w T : Nat) :
    mulDec L (decFromRatio w T) ≤ L * w / T := by
  unfold mulDec decFromRatio
  calc L * (w * decDenom / T) / decDenom
      ≤ L * (w * decDenom) / T / decDenom :=
        Nat.div_le_div_right (Nat.mul_div_le_mul_div_assoc _ _ _)
    _ = L * (w * decDenom) / (T * decDenom) := Nat.div_div_eq_div_mul _ _ _
    _ = L * w * decDenom / (T * decDenom) := by rw [Nat.mul_assoc]
    _ = L * w / T := Nat.mul_div_mul_right _ _ decDenom_pos

theorem incentive_le_prorata (du d : Nat) (cfg : Config) (T : Nat) :
    calculate_mars_incentives_for_lockup du d cfg T ≤
      cfg.lockdrop_incentives * calculate_weight du d cfg / T := by
  unfold calculate_mars_incentives_for_lockup
  split
  · exact Nat.zero_le _
  · exact mulDec_fromRatio_le _ _ _

theorem incentive_sum_le_aux (cfg : Config) (T : Nat)
    (l : List ((Nat × Nat) × LockupInfo)) :
    (l.map fun kv =>
      calculate_mars_incentives_for_lockup kv.2.ust_locked kv.2.duration cfg T).sum ≤
      cfg.lockdrop_incentives *
        (l.map fun kv => calculate_weight kv.2.ust_locked kv.2.duration cfg).sum / T := by
  induction l with
  | nil => simp
  | cons kv rest ih =>
    simp only [List.map_cons, List.sum_cons]
    calc calculate_mars_incentives_for_lockup kv.2.ust_locked kv.2.duration cfg T +
          (rest.map fun kv =>
            calculate_mars_incentives_for_lockup kv.2.ust_locked kv.2.duration cfg T).sum
        ≤ cfg.lockdrop_incentives * calculate_weight kv.2.ust_locked kv.2.duration cfg / T +
          cfg.lockdrop_incentives *
            (rest.map fun kv => calculate_weight kv.2.ust_locked kv.2.duration cfg).sum / T :=
          Nat.add_le_add (incentive_le_prorata _ _ _ _) ih
      _ ≤ (cfg.lockdrop_incentives * calculate_weight kv.2.ust_locked kv.2.duration cfg +
            cfg.lockdrop_incentives *
              (rest.map fun kv => calculate_weight kv.2.ust_locked kv.2.duration cfg).sum) / T :=
          Nat.add_div_le_add_div _ _ _
      _ = cfg.lockdrop_incentives *
            (calculate_weight kv.2.ust_locked kv.2.duration cfg +
              (rest.map fun kv => calculate_weight kv.2.ust_locked kv.2.duration cfg).sum) / T := by
          rw [Nat.mul_add]

/-- C1 (amended): each position's incentive is at most its exact pro-rata
share rounded down (`⌊lockdrop_incentives * weight / total_deposits_weight⌋`),
and the positions' incentives sum to at most `lockdrop_incentives` PROVIDED
the sum of the positions' recomputed weights is at most
`total_deposits_weight` (as is the case when every position was built by a
single deposit).  The unconditional sum bound claimed by the spec fails in
reachable states: see the counterexample. -/
theorem c1_incentive_prorata_and_conditional_sum (store : Storage) :
    (∀ kv ∈ store.lockups,
      calculate_mars_incentives_for_lockup kv.2.ust_locked kv.2.duration
          store.config store.state.total_deposits_weight ≤
        store.config.lockdrop_incentives *
          calculate_weight kv.2.ust_locked kv.2.duration store.config /
            store.state.total_deposits_weight) ∧
    (lockupWeightSum store ≤ store.state.total_deposits_weight →
      lockupIncentiveSum store ≤ store.config.lockdrop_incentives) := by
  constructor
  · intro kv _
    exact incentive_le_prorata _ _ _ _
  · intro hW
    unfold lockupIncentiveSum
    rcases Nat.eq_zero_or_pos store.state.total_deposits_weight with hT | hT
    · have hz : ∀ kv ∈ store.lockups,
          calculate_mars_incentives_for_lockup kv.2.ust_locked kv.2.duration
            store.config store.state.total_deposits_weight = 0 := by
        intro kv _
        unfold calculate_mars_incentives_for_lockup
        rw [if_pos hT]
      calc (store.lockups.map fun kv =>
            calculate_mars_incentives_for_lockup kv.2.ust_locked kv.2.duration
              store.config store.state.total_deposits_weight).sum
          = 0 := by
            apply List.sum_eq_zero
            intro x hx
            obtain ⟨kv, hkv, rfl⟩ := List.mem_map.mp hx
            exact hz kv hkv
        _ ≤ store.config.lockdrop_incentives := Nat.zero_le _
    · calc (store.lockups.map fun kv =>
            calculate_mars_incentives_for_lockup kv.2.ust_locked kv.2.duration
              store.config store.state.total_deposits_weight).sum
          ≤ store.config.lockdrop_incentives * lockupWeightSum store /
              store.state.total_deposits_weight :=
            incentive_sum_le_aux store.config store.state.total_deposits_weight store.lockups
        _ ≤ store.config.lockdrop_incentives * store.state.total_deposits_weight /
              store.state.total_deposits_weight :=
            Nat.div_le_div_right (Nat.mul_le_mul_left _ hW)
        _ = store.config.lockdrop_incentives := Nat.mul_div_cancel _ hT

/-- C1 amended-claim witness: a single-deposit store (one position of
`10` UST at duration `4`, `total_deposits_weight = 13`): its weight sum `13`
does not exceed `13`, so the incentive sum is bounded by the pool. -/
def singleDepositStore : Storage :=
  { config := fixCfg,
    state :=
      { final_ust_locked := 10, final_maust_locked := 10,
        total_ust_locked := 0, total_maust_locked := 10,
        total_deposits_weight := 13, total_mars_delegated := 0,
        are_claims_allowed := false, xmars_rewards_index := 0 },
    lockups := [((2, 4),
      { ust_locked := 10, duration := 4, unlock_timestamp := 2421200,
        withdrawal_flag := false, lockdrop_reward := 0 })],
    users := [(2,
      { total_ust_locked := 10, total_maust_share := 0,
        lockup_positions := [(2, 4)], total_mars_incentives := 0,
        delegated_mars_incentives := 0, lockdrop_claimed := false,
        reward_index := 0, total_xmars_claimed := 0 })] }

/-- C1 amended-claim witness. -/
theorem c1_incentive_prorata_and_conditional_sum_witness :
    lockupWeightSum singleDepositStore ≤ singleDepositStore.state.total_deposits_weight ∧
      lockupIncentiveSum singleDepositStore ≤ singleDepositStore.config.lockdrop_incentives :=
  ⟨by decide,
   (c1_incentive_prorata_and_conditional_sum singleDepositStore).2 (by decide)⟩

/-- The step sequence that breaks the unconditional C1 sum bound: user `2`
deposits `5` UST at duration `4` twice during the deposit window (each
deposit contributes `⌊5·1.3⌋ = 6` to `total_deposits_weight`, total `12`,
while the position's recomputed weight is `⌊10·1.3⌋ = 13`); the owner then
freezes via the red bank (callback delivers `10` minted maUST). -/
def c1Steps : List StepInput :=
  [ .extCall 2 1000 [⟨"uusd", 5⟩] extZero (.depositUst 4),
    .extCall 2 1000 [⟨"uusd", 5⟩] extZero (.depositUst 4),
    .extCall 1 2201 [] extZero .depositUstInRedBank,
    .deliver 2201 ⟨20, 21, 22, 23, 10, 0, 0⟩ ]

/-- C1 counterexample: a reachable post-freeze state (reached from
`instantiate` by two deposits and the freeze) in which the sum over all
lockup positions of `calculate_mars_incentives_for_lockup` is
`12999999 > 12000000 = lockdrop_incentives`: the claimed unconditional bound
`sum ≤ lockdrop_incentives` is false. -/
theorem c1_incentive_sum_counterexample :
    instantiate 0 fixCfg = .ok fixStore ∧
      (runSteps (initSys fixStore) c1Steps).store.state.final_maust_locked ≠ 0 ∧
      lockupIncentiveSum (runSteps (initSys fixStore) c1Steps).store = 12999999 ∧
      (runSteps (initSys fixStore) c1Steps).store.config.lockdrop_incentives = 12000000 ∧
      ¬ lockupIncentiveSum (runSteps (initSys fixStore) c1Steps).store ≤
          (runSteps (initSys fixStore) c1Steps).store.config.lockdrop_incentives := by
  refine ⟨by decide, by decide, by decide, by decide, by decide⟩

/-! ### C5 -/

/-- The storage after user `2` deposits `100` UST at duration `4` into the
fresh fixture contract at `t = 1500` (inside the deposit window `[1000,2000]`
but after the withdrawal window `[1000,1200]` has closed). -/
def c5DepositedStore : Storage :=
  { config := fixCfg,
    state :=
      { final_ust_locked := 0, final_maust_locked := 0,
        total_ust_locked := 100, total_maust_locked := 0,
        total_deposits_weight := 130, total_mars_delegated := 0,
        are_claims_allowed := false, xmars_rewards_index := 0 },
    lockups := [((2, 4),
      { ust_locked := 100, duration := 4, unlock_timestamp := 2421200,
        withdrawal_flag := false, lockdrop_reward := 0 })],
    users := [(2,
      { total_ust_locked := 100, total_maust_share := 0,
        lockup_positions := [(2, 4)], total_mars_incentives := 0,
        delegated_mars_incentives := 0, lockdrop_claimed := false,
        reward_index := 0, total_xmars_claimed := 0 })] }

/-- C5 counterexample: at `t = 1500` the deposit window is open, user `2`
deposits `100` at duration `4`, and the immediate withdrawal of the same
`100` at the same duration fails ("Withdrawals not allowed", because the
withdrawal window — strictly shorter than the deposit window — has already
closed), so `total_ust_locked` and `total_deposits_weight` are NOT restored
to their pre-deposit values: the claimed round-trip fails for states late in
the open deposit window. -/
theorem c5_roundtrip_counterexample :
    is_deposit_open 1500 fixCfg = true ∧
      try_deposit_ust fixStore ⟨1500, 0⟩ ⟨2, [⟨"uusd", 100⟩]⟩ 4 =
        .ok (c5DepositedStore, []) ∧
      try_withdraw_ust c5DepositedStore ⟨1500, 0⟩ ⟨2, []⟩ 4 100 =
        .error (.generic "Withdrawals not allowed") ∧
      c5DepositedStore.state.total_ust_locked ≠ fixStore.state.total_ust_locked ∧
      c5DepositedStore.state.total_deposits_weight ≠
        fixStore.state.total_deposits_weight := by
  refine ⟨by decide, by decide, by decide, by decide, by decide⟩

theorem lockupLoad_save_self (l : List ((Nat × Nat) × LockupInfo))
    (k : Nat × Nat) (v : LockupInfo) :
    lockupLoad (lockupSave l k v) k = some v := by
  induction l with
  | nil => simp [lockupSave, lockupLoad]
  | cons head rest ih =>
    obtain ⟨k', w⟩ := head
    by_cases h : k' = k
    · simp [lockupSave, lockupLoad, h]
    · simp [lockupSave, lockupLoad, h, ih]

theorem userLoad_save_self (l : List (Nat × UserInfo)) (k : Nat) (v : UserInfo) :
    userLoad (userSave l k v) k = some v := by
  induction l with
  | nil => simp [userSave, userLoad]
  | cons head rest ih =>
    obtain ⟨k', w⟩ := head
    by_cases h : k' = k
    · simp [userSave, userLoad, h]
    · simp [userSave, userLoad, h, ih]

/-- The storage `try_deposit_ust` produces on success (mirrors the success
branch of the handler). -/
def depositResultStore (store : Storage) (u X d : Nat) : Storage :=
  let config := store.config
  let lockup_id := (u, d)
  let lockup_info := loadLockupD store lockup_id
  let lockup_info := { lockup_info with ust_locked := lockup_info.ust_locked + X }
  let user_info := loadUserD store u
  let user_info := { user_info with total_ust_locked := user_info.total_ust_locked + X }
  let (lockup_info, user_info) :=
    if lockup_info.duration = 0 then
      ({ lockup_info with
          duration := d,
          unlock_timestamp := calculate_unlock_timestamp config d },
       { user_info with lockup_positions := user_info.lockup_positions ++ [lockup_id] })
    else (lockup_info, user_info)
  { store with
    state :=
      { store.state with
        total_ust_locked := store.state.total_ust_locked + X,
        total_deposits_weight :=
          store.state.total_deposits_weight + calculate_weight X d config },
    lockups := lockupSave store.lockups lockup_id lockup_info,
    users := userSave store.users u user_info }

theorem try_deposit_ust_ok (store : Storage) (env : EnvInfo) (u X d : Nat)
    (hopen : is_deposit_open env.blockTime store.config = true)
    (hX : X ≠ 0)
    (hdur : ¬(d > store.config.max_lock_duration ∨ d < store.config.min_lock_duration)) :
    try_deposit_ust store env ⟨u, [⟨uusdDenom, X⟩]⟩ d =
      .ok (depositResultStore store u X d, []) := by
  unfold try_deposit_ust depositResultStore
  simp [hopen, hX, hdur]

theorem try_withdraw_ust_ok (store : Storage) (env : EnvInfo) (u d X : Nat)
    (li : LockupInfo) (ui : UserInfo)
    (hli : lockupLoad store.lockups (u, d) = some li)
    (hui : userLoad store.users u = some ui)
    (hopen : is_withdraw_open env.blockTime store.config = true)
    (hne : li.ust_locked ≠ 0)
    (hX : X ≤ li.ust_locked)
    (hflag : ¬ env.blockTime ≥ store.config.init_timestamp + store.config.deposit_window)
    (hpct : allowed_withdrawal_percent env.blockTime store.config = decOne)
    (hmem : li.ust_locked - X = 0 → (u, d) ∈ ui.lockup_positions) :
    ∃ ui2, try_withdraw_ust store env ⟨u, []⟩ d X =
      .ok ({ store with
              state :=
                { store.state with
                  total_ust_locked := store.state.total_ust_locked - X,
                  total_deposits_weight :=
                    store.state.total_deposits_weight - calculate_weight X d store.config },
              lockups := lockupSave store.lockups (u, d)
                { li with ust_locked := li.ust_locked - X },
              users := userSave store.users u ui2 },
           [.sendNative u uusdDenom X]) := by
  unfold try_withdraw_ust
  simp only [loadLockupD, hli, Option.getD_some, hopen, Bool.not_true, Bool.false_eq_true,
    if_false, hne, hpct, mulDec_decOne, loadUserD, hui]
  rw [if_neg (show ¬ X > li.ust_locked by omega)]
  simp only [if_neg hflag]
  by_cases hz : li.ust_locked - X = 0
  · simp only [remove_lockup_pos_from_user_info, hz, if_true]
    rw [if_pos (hmem hz)]
    exact ⟨_, rfl⟩
  · simp only [hz, if_false]
    exact ⟨_, rfl⟩

theorem try_withdraw_ust_totals (store : Storage) (env : EnvInfo) (u d X : Nat)
    (li : LockupInfo) (ui : UserInfo)
    (hli : lockupLoad store.lockups (u, d) = some li)
    (hui : userLoad store.users u = some ui)
    (hopen : is_withdraw_open env.blockTime store.config = true)
    (hne : li.ust_locked ≠ 0)
    (hX : X ≤ li.ust_locked)
    (hflag : ¬ env.blockTime ≥ store.config.init_timestamp + store.config.deposit_window)
    (hpct : allowed_withdrawal_percent env.blockTime store.config = decOne)
    (hmem : li.ust_locked - X = 0 → (u, d) ∈ ui.lockup_positions) :
    ∃ st2 out2, try_withdraw_ust store env ⟨u, []⟩ d X = .ok (st2, out2) ∧
      st2.state.total_ust_locked = store.state.total_ust_locked - X ∧
      st2.state.total_deposits_weight =
        store.state.total_deposits_weight - calculate_weight X d store.config := by
  obtain ⟨ui2, hw⟩ := try_withdraw_ust_ok store env u d X li ui hli hui hopen hne hX
    hflag hpct hmem
  exact ⟨_, _, hw, rfl, rfl⟩

/-- C5 (amended): during the open WITHDRAWAL window (not the full deposit
window), a deposit of `X` at duration `d` followed immediately by a
withdrawal of the same `X` at the same `d` succeeds and restores both
`total_ust_locked` and `total_deposits_weight` to their pre-deposit values.
The bookkeeping hypothesis `hcons` rules out storages in which a
zero-balance position is no longer listed in the user's position list (on
those the source `unwrap`-panics while removing the position). -/
theorem c5_roundtrip_in_withdrawal_window (store : Storage) (ca t u X d : Nat)
    (hvalid : store.config.withdrawal_window < store.config.deposit_window)
    (hopen : is_withdraw_open t store.config = true)
    (hX : X ≠ 0)
    (hdur : ¬(d > store.config.max_lock_duration ∨ d < store.config.min_lock_duration))
    (hcons : (loadLockupD store (u, d)).ust_locked = 0 →
      (loadLockupD store (u, d)).duration = 0 ∨
        (u, d) ∈ (loadUserD store u).lockup_positions) :
    ∃ st2 out2,
      try_deposit_ust store ⟨t, ca⟩ ⟨u, [⟨uusdDenom, X⟩]⟩ d =
        .ok (depositResultStore store u X d, []) ∧
      try_withdraw_ust (depositResultStore store u X d) ⟨t, ca⟩ ⟨u, []⟩ d X =
        .ok (st2, out2) ∧
      st2.state.total_ust_locked = store.state.total_ust_locked ∧
      st2.state.total_deposits_weight = store.state.total_deposits_weight := by
  obtain ⟨hb1, hb2⟩ := is_withdraw_open_bounds t store.config hopen
  have hdo : is_deposit_open t store.config = true := by
    simp only [is_deposit_open, Bool.and_eq_true, decide_eq_true_eq, ge_iff_le]
    omega
  have hdep := try_deposit_ust_ok store ⟨t, ca⟩ u X d hdo hX hdur
  have hflag : ¬ (t ≥ store.config.init_timestamp + store.config.deposit_window) := by omega
  have hpct : allowed_withdrawal_percent t store.config = decOne :=
    allowed_percent_before_cutoff t store.config (by omega)
  by_cases hd0 : (loadLockupD store (u, d)).duration = 0
  · have hst1 : depositResultStore store u X d =
        { store with
          state :=
            { store.state with
              total_ust_locked := store.state.total_ust_locked + X,
              total_deposits_weight :=
                store.state.total_deposits_weight + calculate_weight X d store.config },
          lockups := lockupSave store.lockups (u, d)
            ⟨(loadLockupD store (u, d)).ust_locked + X, d,
              calculate_unlock_timestamp store.config d,
              (loadLockupD store (u, d)).withdrawal_flag,
              (loadLockupD store (u, d)).lockdrop_reward⟩,
          users := userSave store.users u
            { loadUserD store u with
              total_ust_locked := (loadUserD store u).total_ust_locked + X,
              lockup_positions := (loadUserD store u).lockup_positions ++ [(u, d)] } } := by
      unfold depositResultStore
      simp [hd0]
    obtain ⟨st2, out2, hw, ht1, ht2⟩ := try_withdraw_ust_totals
      (depositResultStore store u X d) ⟨t, ca⟩ u d X
      ⟨(loadLockupD store (u, d)).ust_locked + X, d,
        calculate_unlock_timestamp store.config d,
        (loadLockupD store (u, d)).withdrawal_flag,
        (loadLockupD store (u, d)).lockdrop_reward⟩
      { loadUserD store u with
        total_ust_locked := (loadUserD store u).total_ust_locked + X,
        lockup_positions := (loadUserD store u).lockup_positions ++ [(u, d)] }
      (by rw [hst1]; exact lockupLoad_save_self _ _ _)
      (by rw [hst1]; exact userLoad_save_self _ _ _)
      (by rw [hst1]; exact hopen)
      (by show (loadLockupD store (u, d)).ust_locked + X ≠ 0; omega)
      (Nat.le_add_left X _)
      (by rw [hst1]; exact hflag)
      (by rw [hst1]; exact hpct)
      (by
        show (loadLockupD store (u, d)).ust_locked + X - X = 0 →
          (u, d) ∈ (loadUserD store u).lockup_positions ++ [(u, d)]
        intro _
        simp)
    refine ⟨st2, out2, hdep, hw, ?_, ?_⟩
    · rw [ht1, hst1]
      show store.state.total_ust_locked + X - X = store.state.total_ust_locked
      omega
    · rw [ht2, hst1]
      show store.state.total_deposits_weight + calculate_weight X d store.config -
          calculate_weight X d store.config = store.state.total_deposits_weight
      omega
  · have hst1 : depositResultStore store u X d =
        { store with
          state :=
            { store.state with
              total_ust_locked := store.state.total_ust_locked + X,
              total_deposits_weight :=
                store.state.total_deposits_weight + calculate_weight X d store.config },
          lockups := lockupSave store.lockups (u, d)
            { loadLockupD store (u, d) with
              ust_locked := (loadLockupD store (u, d)).ust_locked + X },
          users := userSave store.users u
            { loadUserD store u with
              total_ust_locked := (loadUserD store u).total_ust_locked + X } } := by
      unfold depositResultStore
      simp [hd0]
    obtain ⟨st2, out2, hw, ht1, ht2⟩ := try_withdraw_ust_totals
      (depositResultStore store u X d) ⟨t, ca⟩ u d X
      { loadLockupD store (u, d) with
        ust_locked := (loadLockupD store (u, d)).ust_locked + X }
      { loadUserD store u with
        total_ust_locked := (loadUserD store u).total_ust_locked + X }
      (by rw [hst1]; exact lockupLoad_save_self _ _ _)
      (by rw [hst1]; exact userLoad_save_self _ _ _)
      (by rw [hst1]; exact hopen)
      (by show (loadLockupD store (u, d)).ust_locked + X ≠ 0; omega)
      (Nat.le_add_left X _)
      (by rw [hst1]; exact hflag)
      (by rw [hst1]; exact hpct)
      (by
        show (loadLockupD store (u, d)).ust_locked + X - X = 0 →
          (u, d) ∈ (loadUserD store u).lockup_positions
        intro hz
        have hz0 : (loadLockupD store (u, d)).ust_locked = 0 := by omega
        rcases hcons hz0 with hdeq | hm
        · exact absurd hdeq hd0
        · exact hm)
    refine ⟨st2, out2, hdep, hw, ?_, ?_⟩
    · rw [ht1, hst1]
      show store.state.total_ust_locked + X - X = store.state.total_ust_locked
      omega
    · rw [ht2, hst1]
      show store.state.total_deposits_weight + calculate_weight X d store.config -
          calculate_weight X d store.config = store.state.total_deposits_weight
      omega

/-- C5 amended-claim witness: on the fresh fixture store at `t = 1100`
(inside the withdrawal window), deposit `100` at duration `4` then withdraw
`100` at duration `4`; the totals return to zero. -/
theorem c5_roundtrip_in_withdrawal_window_witness :
    ∃ st2 out2,
      try_deposit_ust fixStore ⟨1100, 0⟩ ⟨2, [⟨uusdDenom, 100⟩]⟩ 4 =
        .ok (depositResultStore fixStore 2 100 4, []) ∧
      try_withdraw_ust (depositResultStore fixStore 2 100 4) ⟨1100, 0⟩ ⟨2, []⟩ 4 100 =
        .ok (st2, out2) ∧
      st2.state.total_ust_locked = fixStore.state.total_ust_locked ∧
      st2.state.total_deposits_weight = fixStore.state.total_deposits_weight :=
  c5_roundtrip_in_withdrawal_window fixStore 0 1100 2 100 4 (by decide) (by decide)
    (by decide) (by decide) (by intro _; exact Or.inl (by decide))

/-- No `DissolvePosition` among a list of callbacks. -/
def noDissolve (cbs : List CallbackMsg) : Prop :=
  ∀ u d f, CallbackMsg.dissolvePosition u d f ∉ cbs

theorem cbOf_append (a b : List OutMsg) : cbOf (a ++ b) = cbOf a ++ cbOf b :=
  List.filterMap_append a b _

theorem update_xmars_flag (st : State) (x : Nat) :
    (update_xmars_rewards_index st x).are_claims_allowed = st.are_claims_allowed := by
  unfold update_xmars_rewards_index
  split <;> rfl

theorem try_withdraw_ust_effect {store : Storage} {env : EnvInfo} {info : MsgInfo}
    {d X : Nat} {store' : Storage} {out : List OutMsg}
    (h : try_withdraw_ust store env info d X = .ok (store', out)) :
    store'.state.are_claims_allowed = store.state.are_claims_allowed ∧ cbOf out = [] := by
  unfold try_withdraw_ust at h
  simp only [] at h
  split at h
  · exact absurd h (by simp)
  split at h
  · exact absurd h (by simp)
  split at h
  · exact absurd h (by simp)
  split at h
  · exact absurd h (by simp)
  simp only [Except.ok.injEq, Prod.mk.injEq] at h
  obtain ⟨h1, h2⟩ := h
  subst h1 h2
  exact ⟨rfl, rfl⟩

theorem handle_enable_claims_effect {store : Storage} {info : MsgInfo}
    {store' : Storage} {out : List OutMsg}
    (h : handle_enable_claims store info = .ok (store', out)) :
    store'.state.are_claims_allowed = true ∧ out = [] := by
  unfold handle_enable_claims at h
  simp only [] at h
  split at h
  · exact absurd h (by simp)
  split at h
  · exact absurd h (by simp)
  simp only [Except.ok.injEq, Prod.mk.injEq] at h
  obtain ⟨h1, h2⟩ := h
  subst h1 h2
  exact ⟨rfl, rfl⟩

theorem try_deposit_in_red_bank_effect {store : Storage} {env : EnvInfo}
    {info : MsgInfo} {ext : Ext} {store' : Storage} {out : List OutMsg}
    (h : try_deposit_in_red_bank store env info ext = .ok (store', out)) :
    store' = store ∧ noDissolve (cbOf out) := by
  unfold try_deposit_in_red_bank at h
  simp only [] at h
  split at h
  · exact absurd h (by simp)
  split at h
  · exact absurd h (by simp)
  split at h
  · exact absurd h (by simp)
  simp only [Except.ok.injEq, Prod.mk.injEq] at h
  obtain ⟨h1, h2⟩ := h
  subst h1 h2
  refine ⟨rfl, ?_⟩
  intro u d f hmem
  simp [cbOf] at hmem

theorem handle_deposit_mars_to_auction_effect {store : Storage} {env : EnvInfo}
    {info : MsgInfo} {ext : Ext} {amount : Nat} {store' : Storage} {out : List OutMsg}
    (h : handle_deposit_mars_to_auction store env info ext amount = .ok (store', out)) :
    store'.state.are_claims_allowed = store.state.are_claims_allowed ∧ cbOf out = [] := by
  unfold handle_deposit_mars_to_auction at h
  simp only [] at h
  repeat' split at h
  all_goals first
    | exact Except.noConfusion h
    | (simp only [Except.ok.injEq, Prod.mk.injEq] at h
       obtain ⟨h1, h2⟩ := h
       subst h1 h2
       exact ⟨rfl, rfl⟩)

theorem handle_claim_effect {store : Storage} {env : EnvInfo} {info : MsgInfo}
    {ext : Ext} {dur : Nat} {f : Bool} {store' : Storage} {out : List OutMsg}
    (h : handle_claim_rewards_and_unlock_position store env info ext dur f =
      .ok (store', out)) :
    store'.state = store.state ∧ store.state.are_claims_allowed = true := by
  unfold handle_claim_rewards_and_unlock_position at h
  simp only [] at h
  repeat' split at h
  all_goals first
    | exact Except.noConfusion h
    | (simp only [Except.ok.injEq, Prod.mk.injEq] at h
       obtain ⟨h1, h2⟩ := h
       subst h1 h2
       refine ⟨rfl, by simp_all⟩)

theorem update_state_on_red_bank_deposit_effect {store : Storage} {env : EnvInfo}
    {prev : Nat} {ext : Ext} {store' : Storage} {out : List OutMsg}
    (h : update_state_on_red_bank_deposit store env prev ext = .ok (store', out)) :
    store'.state.are_claims_allowed = store.state.are_claims_allowed ∧ out = [] := by
  unfold update_state_on_red_bank_deposit at h
  simp only [Except.ok.injEq, Prod.mk.injEq] at h
  obtain ⟨h1, h2⟩ := h
  subst h1 h2
  exact ⟨rfl, rfl⟩

theorem update_state_on_claim_effect {store : Storage} {env : EnvInfo}
    {user prev : Nat} {ext : Ext} {store' : Storage} {out : List OutMsg}
    (h : update_state_on_claim store env user prev ext = .ok (store', out)) :
    store'.state.are_claims_allowed = store.state.are_claims_allowed ∧ cbOf out = [] := by
  unfold update_state_on_claim at h
  simp only [Except.ok.injEq, Prod.mk.injEq] at h
  obtain ⟨h1, h2⟩ := h
  subst h1 h2
  constructor
  · show State.are_claims_allowed (if _ then _ else _) = _
    split
    · exact update_xmars_flag _ _
    · rfl
  · rw [cbOf_append]
    refine List.append_eq_nil.mpr ⟨?_, ?_⟩ <;> (repeat' split) <;> rfl

theorem try_dissolve_position_effect {store : Storage} {env : EnvInfo}
    {user d : Nat} {f : Bool} {ext : Ext} {store' : Storage} {out : List OutMsg}
    (h : try_dissolve_position store env user d f ext = .ok (store', out)) :
    store'.state.are_claims_allowed = store.state.are_claims_allowed ∧ cbOf out = [] := by
  unfold try_dissolve_position at h
  simp only [] at h
  split at h
  · exact absurd h (by simp)
  simp only [Except.ok.injEq, Prod.mk.injEq] at h
  obtain ⟨h1, h2⟩ := h
  subst h1 h2
  refine ⟨rfl, ?_⟩
  rw [cbOf_append]
  split <;> rfl

theorem update_config_effect {store : Storage} {env : EnvInfo} {info : MsgInfo}
    {m : UpdateConfigMsg} {store' : Storage} {out : List OutMsg}
    (h : update_config store env info m = .ok (store', out)) :
    store'.state = store.state ∧ out = [] := by
  unfold update_config at h
  simp only [] at h
  split at h
  · exact absurd h (by simp)
  · simp only [Except.ok.injEq, Prod.mk.injEq] at h
    obtain ⟨h1, h2⟩ := h
    subst h1 h2
    exact ⟨rfl, rfl⟩

theorem try_deposit_ust_effect {store : Storage} {env : EnvInfo} {info : MsgInfo}
    {d : Nat} {store' : Storage} {out : List OutMsg}
    (h : try_deposit_ust store env info d = .ok (store', out)) :
    store'.state.are_claims_allowed = store.state.are_claims_allowed ∧ out = [] := by
  unfold try_deposit_ust at h
  simp only [] at h
  split at h
  · exact absurd h (by simp)
  split at h
  · exact absurd h (by simp)
  split at h
  · exact absurd h (by simp)
  split at h
  · exact absurd h (by simp)
  split at h
  · exact absurd h (by simp)
  split at h
  · exact absurd h (by simp)
  simp only [Except.ok.injEq, Prod.mk.injEq] at h
  obtain ⟨h1, h2⟩ := h
  subst h1 h2
  exact ⟨rfl, rfl⟩

/-- Executing any message never resets `are_claims_allowed`. -/
theorem execute_claims_mono {store : Storage} {env : EnvInfo} {info : MsgInfo}
    {ext : Ext} {msg : ExecuteMsg} {store' : Storage} {out : List OutMsg}
    (h : execute store env info ext msg = .ok (store', out))
    (hflag : store.state.are_claims_allowed = true) :
    store'.state.are_claims_allowed = true := by
  cases msg with
  | updateConfig m =>
    simp only [execute] at h
    rw [show store'.state = store.state from (update_config_effect h).1]
    exact hflag
  | depositUst d =>
    simp only [execute] at h
    exact (try_deposit_ust_effect h).1.trans hflag
  | withdrawUst d X =>
    simp only [execute] at h
    exact (try_withdraw_ust_effect h).1.trans hflag
  | depositMarsToAuction a =>
    simp only [execute] at h
    exact (handle_deposit_mars_to_auction_effect h).1.trans hflag
  | enableClaims =>
    simp only [execute] at h
    exact (handle_enable_claims_effect h).1
  | depositUstInRedBank =>
    simp only [execute] at h
    rw [show store' = store from (try_deposit_in_red_bank_effect h).1]
    exact hflag
  | claimRewardsAndUnlock dur f =>
    simp only [execute] at h
    rw [show store'.state = store.state from (handle_claim_effect h).1]
    exact (handle_claim_effect h).2
  | callback cb =>
    simp only [execute] at h
    unfold handleCallback at h
    split at h
    · exact Except.noConfusion h
    · cases cb with
      | updateStateOnRedBankDeposit prev =>
        exact (update_state_on_red_bank_deposit_effect h).1.trans hflag
      | updateStateOnClaim user prev =>
        exact (update_state_on_claim_effect h).1.trans hflag
      | dissolvePosition user dur f =>
        exact (try_dissolve_position_effect h).1.trans hflag

/-- A `DissolvePosition` callback is only ever emitted by an execution whose
post-state has `are_claims_allowed = true` (only the claim-and-unlock handler
emits it, and that handler requires claims to be enabled). -/
theorem execute_dissolve_emitted {store : Storage} {env : EnvInfo} {info : MsgInfo}
    {ext : Ext} {msg : ExecuteMsg} {store' : Storage} {out : List OutMsg}
    (h : execute store env info ext msg = .ok (store', out))
    {u d : Nat} {f : Bool}
    (hmem : CallbackMsg.dissolvePosition u d f ∈ cbOf out) :
    store'.state.are_claims_allowed = true := by
  cases msg with
  | updateConfig m =>
    simp only [execute] at h
    rw [(update_config_effect h).2] at hmem
    simp [cbOf] at hmem
  | depositUst d =>
    simp only [execute] at h
    rw [(try_deposit_ust_effect h).2] at hmem
    simp [cbOf] at hmem
  | withdrawUst d X =>
    simp only [execute] at h
    rw [(try_withdraw_ust_effect h).2] at hmem
    simp at hmem
  | depositMarsToAuction a =>
    simp only [execute] at h
    rw [(handle_deposit_mars_to_auction_effect h).2] at hmem
    simp at hmem
  | enableClaims =>
    simp only [execute] at h
    exact (handle_enable_claims_effect h).1
  | depositUstInRedBank =>
    simp only [execute] at h
    exact absurd hmem ((try_deposit_in_red_bank_effect h).2 u d f)
  | claimRewardsAndUnlock dur f =>
    simp only [execute] at h
    rw [show store'.state = store.state from (handle_claim_effect h).1]
    exact (handle_claim_effect h).2
  | callback cb =>
    simp only [execute] at h
    unfold handleCallback at h
    split at h
    · exact Except.noConfusion h
    · cases cb with
      | updateStateOnRedBankDeposit prev =>
        rw [(update_state_on_red_bank_deposit_effect h).2] at hmem
        simp [cbOf] at hmem
      | updateStateOnClaim user prev =>
        rw [(update_state_on_claim_effect h).2] at hmem
        simp at hmem
      | dissolvePosition user dur f =>
        rw [(try_dissolve_position_effect h).2] at hmem
        simp at hmem

/-- The system invariant: any pending `DissolvePosition` callback implies
claims are already enabled. -/
def SysInv (sys : Sys) : Prop :=
  ∀ u d f, CallbackMsg.dissolvePosition u d f ∈ sys.queue →
    sys.store.state.are_claims_allowed = true

theorem runStep_inv (sys : Sys) (i : StepInput) (hinv : SysInv sys) :
    SysInv (runStep sys i) := by
  cases i with
  | extCall sender time funds ext msg =>
    simp only [runStep]
    split
    · exact hinv
    · split
      · rename_i store' out heq
        intro u d f hmem
        rcases List.mem_append.mp hmem with hq | hn
        · exact execute_claims_mono heq (hinv u d f hq)
        · exact execute_dissolve_emitted heq hn
      · exact hinv
  | deliver time ext =>
    simp only [runStep]
    split
    · exact hinv
    · rename_i cb rest hq
      split
      · rename_i store' out heq
        intro u d f hmem
        rcases List.mem_append.mp hmem with hr | hn
        · refine execute_claims_mono heq (hinv u d f ?_)
          rw [hq]
          exact List.mem_cons_of_mem _ hr
        · exact execute_dissolve_emitted heq hn
      · intro u d f hmem
        refine hinv u d f ?_
        rw [hq]
        exact List.mem_cons_of_mem _ hmem

theorem runSteps_inv (sys : Sys) (l : List StepInput) (hinv : SysInv sys) :
    SysInv (runSteps sys l) := by
  induction l generalizing sys with
  | nil => exact hinv
  | cons i rest ih => exact ih _ (runStep_inv _ _ hinv)

/-! ### C9 -/

/-- C9: in every system state reachable from a freshly instantiated contract,
a pending `DissolvePosition` callback — the only way any lockup position is
ever dissolved, since external callers cannot invoke callbacks — implies that
`are_claims_allowed` is already `true`: no position is ever dissolved,
naturally or forcefully, before the auction contract has enabled claims. -/
theorem c9_dissolve_only_after_claims_enabled (bt : Nat) (cfg : Config)
    (st0 : Storage) (l : List StepInput) (u d : Nat) (f : Bool)
    (hinst : instantiate bt cfg = .ok st0)
    (hq : CallbackMsg.dissolvePosition u d f ∈ (runSteps (initSys st0) l).queue) :
    (runSteps (initSys st0) l).store.state.are_claims_allowed = true := by
  have hinv0 : SysInv (initSys st0) := by
    intro u' d' f' hmem
    simp [initSys] at hmem
  exact runSteps_inv (initSys st0) l hinv0 u d f hq

/-- The step sequence for the C9 witness: deposit, freeze (call plus
callback delivery), the auction contract enables claims, then the user
requests a forceful claim-and-unlock, which enqueues the dissolve callback. -/
def c9Steps : List StepInput :=
  [ .extCall 2 1000 [⟨"uusd", 100⟩] extZero (.depositUst 4),
    .extCall 1 2201 [] extZero .depositUstInRedBank,
    .deliver 2201 ⟨20, 21, 22, 23, 100, 0, 0⟩,
    .extCall 3 2300 [] extZero .enableClaims,
    .extCall 2 2400 [] extZero (.claimRewardsAndUnlock 4 true) ]

/-- C9 witness: after `c9Steps` the dissolve callback for user `2`,
duration `4` is pending and claims are indeed enabled. -/
theorem c9_dissolve_only_after_claims_enabled_witness :
    CallbackMsg.dissolvePosition 2 4 true ∈ (runSteps (initSys fixStore) c9Steps).queue ∧
      (runSteps (initSys fixStore) c9Steps).store.state.are_claims_allowed = true :=
  ⟨by decide,
   c9_dissolve_only_after_claims_enabled 0 fixCfg fixStore c9Steps 2 4 true
     (by decide) (by decide)⟩
